import Mathlib

/-!
Shallow embedding of the `pin-macros` crate (src/lib.rs): a construction
protocol for immovable, self-referential objects built around pinned
handles into stack storage.

Modelling conventions:
* Machine addresses are `Nat`; a handle or reference carries the address of
  its referent.  The Rust code manipulates addresses only through
  `&mut`, `Pin::new_unchecked`, `get_unchecked_mut`, `as_mut_ptr`,
  `mem::transmute` of references, and field projection `&mut x.f`; every one
  of these is address-preserving resp. offset-adding, which is exactly what
  the corresponding Lean definitions record.
* Memory contents are a function `Addr -> Int`; construction bodies are
  state transformers on contents.  Addresses of live storage never change
  (stack slots are fixed for the scope), so contents and addresses are kept
  separate.
* `Option` fields are embedded as Lean `Option`; Rust `Option::replace` is
  embedded literally.
-/

namespace PinMacros

/-- A machine address. -/
abbrev Addr := Nat

/-- Memory contents: value stored at each address. -/
abbrev Mem := Addr → Int

/-- Phantom marker for the Rust type `MaybeUninit<T>`. -/
structure MaybeUninitT (T : Type) where
  unit : Unit

/-- A Rust `&mut T`: a mutable reference, carrying its referent address. -/
structure MutRef (T : Type) where
  addr : Addr

/-- A Rust `Pin<&mut MaybeUninit<T>>`: pinned handle to uninitialized
storage for `T`. -/
structure PinMutMU (T : Type) where
  addr : Addr

/-- A Rust `Pin<&mut T>`: pinned handle to an (initialized) `T`. -/
structure PinMutT (T : Type) where
  addr : Addr

/-- `transmute_maybe_uninit` (src/lib.rs lines 8-10):
`mem::transmute` of `&mut T` to `&mut MaybeUninit<T>`.  A reference
transmute reinterprets the same referent, so the address is unchanged. -/
def transmute_maybe_uninit {T : Type} (ptr : MutRef T) : MutRef (MaybeUninitT T) :=
  ⟨ptr.addr⟩

/-- `Pin::new_unchecked` on a `&mut T`: wraps the same reference. -/
def pinNewUnchecked {T : Type} (r : MutRef T) : PinMutT T :=
  ⟨r.addr⟩

/-- `Pin::as_mut` followed by `get_unchecked_mut` on a
`Pin<&mut MaybeUninit<Self>>`: unwraps to the underlying `&mut MaybeUninit<Self>`. -/
def getUncheckedMutMU {T : Type} (p : PinMutMU T) : MutRef (MaybeUninitT T) :=
  ⟨p.addr⟩

/-- `MaybeUninit::as_mut_ptr`: raw `*mut T` to the same storage. -/
def asMutPtr {T : Type} (r : MutRef (MaybeUninitT T)) : Addr :=
  r.addr

/-- The function generated by `pin_init!` (src/lib.rs lines 29-54):

```
fn $name(mut __uninit_ptr: Pin<&mut MaybeUninit<Self>>, args...) -> Pin<&mut Self> {
    let __init_ptr = unsafe { __uninit_ptr.as_mut().get_unchecked_mut().as_mut_ptr() };
    let $this = unsafe { &mut *__init_ptr };
    $blk;
    unsafe { Pin::new_unchecked($this) }
}
```

The user body `$blk` (with its arguments already captured) is a state
transformer on memory contents given the address `__init_ptr` bound to
`$this`; it writes fields in place and cannot rebind the outer `$this`,
so the returned pin wraps exactly the pointer extracted from the input
handle. -/
def pin_init_fn {T : Type} (body : Addr → Mem → Mem) (uninit_ptr : PinMutMU T)
    (m : Mem) : PinMutT T × Mem :=
  let init_ptr : Addr := asMutPtr (getUncheckedMutMU uninit_ptr)
  let this : MutRef T := ⟨init_ptr⟩
  let m' := body init_ptr m
  (pinNewUnchecked this, m')

/-- The expansion of `pin_new!` (src/lib.rs lines 13-25):

```
($varn:ident: $vart:ty = $methodn:ident($($arg:expr),* $(,)?)) => {
    let mut __uninit = std::mem::MaybeUninit::<$vart>::uninit();
    let __uninit_ptr = std::pin::pin!(__uninit);
    let $varn = <$vart>::init(__uninit_ptr, $($($arg),*)?);
};
```

`methods` is the method table of the type `$vart`: for each method name, the
construction body that the `pin_init!`-generated function of that name would
run (arguments already captured).  `slotAddr` is the address of the stack
slot reserved by the `MaybeUninit::uninit()` binding.  Note that the
expansion invokes `<$vart>::init`, discarding the captured `$methodn`. -/
def pin_new (T : Type) (methods : String → Addr → Mem → Mem) (_methodn : String)
    (slotAddr : Addr) (m : Mem) : PinMutT T × Mem :=
  let uninit_ptr : PinMutMU T := ⟨slotAddr⟩
  pin_init_fn (methods "init") uninit_ptr m

/-- A concrete method table separating the effect of a method named `init`
(writes 1 into the slot) from one named `make` (writes 2 into the slot). -/
def demoMethodTable : String → Addr → Mem → Mem := fun name ptr m =>
  if name = "make" then fun a => if a = ptr then 2 else m a
  else if name = "init" then fun a => if a = ptr then 1 else m a
  else m

/-- Origin of one live mutable borrow of the storage under construction,
inside a `pin_init!` body. -/
inductive BorrowOrigin where
  | thisBinding
  | initClone (k : Nat)
deriving DecidableEq

/-- A live mutable borrow: where it came from and the address it grants
mutable access to. -/
structure Borrow where
  origin : BorrowOrigin
  addr : Addr
deriving DecidableEq

/-- The borrow `let $this = unsafe { &mut *__init_ptr }` made by the
`pin_init!` expansion before running the body (src/lib.rs line 50). -/
def pin_init_this_borrow (init_ptr : Addr) : Borrow :=
  ⟨.thisBinding, init_ptr⟩

/-- `pin_init_clone!` (src/lib.rs lines 36-42): expands to
`unsafe { Pin::new_unchecked(&mut *__init_ptr) }` — the `k`-th invocation
creates a fresh pinned mutable handle to the same `__init_ptr` address,
while `$this` is still live. -/
def pin_init_clone (init_ptr : Addr) (k : Nat) : Borrow :=
  ⟨.initClone k, init_ptr⟩

/-- The mutable borrows of the storage simultaneously live inside a
`pin_init!` body that has invoked `pin_init_clone!` `clones` times:
the threaded `$this` plus each clone. -/
def liveBorrows (init_ptr : Addr) (clones : Nat) : List Borrow :=
  pin_init_this_borrow init_ptr :: (List.range clones).map (pin_init_clone init_ptr)

/-- Rust `Option::replace`: stores `some v` into the slot and returns the
value previously there.  Result is (new slot contents, returned previous
value). -/
def optionReplace {F : Type} (o : Option F) (v : F) : Option F × Option F :=
  (some v, o)

/-- The object shape for the self-reference rule of `pin_field_init!`: two
already-written source fields and one deferred (`Option`-typed) destination
field — the shape of spec Scenario 3 (a deferred field computed from two
siblings). -/
structure SelfRefObj (F : Type) where
  srcA : Int
  srcB : Int
  dst : Option F
deriving DecidableEq

/-- `pin_field_init!` rule 2 (src/lib.rs lines 78-83):

```
($this:ident: |$($srcfield:ident),+ => $dstfield:ident| $fieldv:expr) => {{
    let __this_ptr = unsafe { $this.as_mut().get_unchecked_mut() as *mut Self };
    $(let $srcfield = unsafe { &mut (*__this_ptr).$srcfield };)+
    let __dst_ptr = unsafe { &mut (*__this_ptr).$dstfield };
    __dst_ptr.replace($fieldv)
}};
```

The supplied expression `$fieldv` is evaluated with live access to the
named sibling fields, and the destination is updated by `Option::replace`.
Result is (object afterwards, the value `replace` returned). -/
def pin_field_init_selfref {F : Type} (this : SelfRefObj F)
    (fieldv : Int → Int → F) : SelfRefObj F × Option F :=
  let v := fieldv this.srcA this.srcB
  let r := optionReplace this.dst v
  ({ this with dst := r.1 }, r.2)

/-- Outcome of one invocation of `pin_field_init!` rule 1: the field value
produced together with how many times the field's construction method was
invoked, or the `unreachable!` arm. -/
inductive NestedInitResult (F : Type) where
  | ok (field : F) (methodCalls : Nat)
  | unreachableArm
deriving DecidableEq

/-- `pin_field_init!` rule 1 (src/lib.rs lines 64-77):

```
($fieldt:ty: $methodn:ident($this:ident.$fieldn:ident ...)) => {
    unsafe {
        let __field_ptr = &mut $this...$fieldn as *mut Option<$fieldt>;
        *__field_ptr = Some(std::mem::MaybeUninit::uninit().assume_init());
        match &mut *__field_ptr {
            Some(__field) => {
                let __pinned_field = Pin::new_unchecked(transmute_maybe_uninit(__field));
                <$fieldt>::$methodn(__pinned_field, ...);
            },
            None => unreachable!(),
        }
    }
};
```

`prior` is whatever the `Option` field held before (overwritten without
drop), `junk` the arbitrary bit pattern `assume_init` yields, and `method`
the in-place effect of the field's construction method on the payload it is
handed. -/
def pin_field_init_nested {F : Type} (_prior : Option F) (junk : F)
    (method : F → F) : NestedInitResult F :=
  let written : Option F := some junk
  match written with
  | some fieldVal => .ok (method fieldVal) 1
  | none => .unreachableArm

/-- Whether an invocation of `pin_field_init!` rule 1 ended in the
`None => unreachable!()` arm. -/
def NestedInitResult.tookUnreachableArm {F : Type} : NestedInitResult F → Bool
  | .ok _ _ => false
  | .unreachableArm => true

/-- `&mut (*__init_ptr).field` — the address of a field inside the object
based at `base` is the base address plus the field offset. -/
def fieldRefAddr (base : Addr) (off : Nat) : Addr :=
  base + off

/-- A `&mut` reference to the field at offset `off` of the object at
`base`. -/
def fieldMutRef (F : Type) (base : Addr) (off : Nat) : MutRef F :=
  ⟨fieldRefAddr base off⟩

/-- `Pin::new_unchecked` on a `&mut MaybeUninit<F>`. -/
def pinNewUncheckedMU {F : Type} (r : MutRef (MaybeUninitT F)) : PinMutMU F :=
  ⟨r.addr⟩

/-- `pin_init_field!` (src/lib.rs lines 43-48): expands to
`unsafe { Pin::new_unchecked(transmute_maybe_uninit(&mut (*__init_ptr).$fieldn)) }`
— a pinned-uninitialized handle for the field at offset `off` of the object
under construction at `base`. -/
def pin_init_field (F : Type) (base : Addr) (off : Nat) : PinMutMU F :=
  pinNewUncheckedMU (transmute_maybe_uninit (fieldMutRef F base off))

/-- `Pin::map_unchecked_mut`: applies a projection to the referent; the
resulting pin refers to the projected address. -/
def mapUncheckedMut {T U : Type} (p : PinMutT T) (proj : Addr → Addr) : PinMutT U :=
  ⟨proj p.addr⟩

/-- The accessor generated by `field_pin!` (src/lib.rs lines 88-94) for a
field at offset `off`:

```
fn $name(self: Pin<&mut Self>) -> Pin<&mut $type> {
    unsafe { self.map_unchecked_mut(|this| &mut this.$name) }
}
``` -/
def field_pin {T F : Type} (off : Nat) (p : PinMutT T) : PinMutT F :=
  mapUncheckedMut p (fun a => fieldRefAddr a off)

/-- `Pin::get_mut`: unwraps a pin of an `Unpin` referent to the plain
mutable reference. -/
def pinGetMut {F : Type} (p : PinMutT F) : MutRef F :=
  ⟨p.addr⟩

/-- The accessor generated by `field_unpin!` (src/lib.rs lines 96-103):
`unsafe { self.map_unchecked_mut(|this| &mut this.$name).get_mut() }`. -/
def field_unpin {T F : Type} (off : Nat) (p : PinMutT T) : MutRef F :=
  pinGetMut (mapUncheckedMut p (fun a => fieldRefAddr a off))

/-- One accessor invocation on the pinned object handle: a
`field_pin!`-generated or a `field_unpin!`-generated accessor, identified by
the offset of the field it was generated for. -/
inductive AccessorCall where
  | pinAcc (off : Nat)
  | unpinAcc (off : Nat)
deriving DecidableEq

/-- The address of the reference returned by one accessor invocation on the
pinned object handle `p`. -/
def accessorAddr {T : Type} (p : PinMutT T) : AccessorCall → Addr
  | .pinAcc off => (field_pin (F := Unit) off p).addr
  | .unpinAcc off => (field_unpin (F := Unit) off p).addr

/-- The addresses returned by a sequence of accessor invocations on the
same pinned object handle.  Accessor bodies only reborrow and project; they
neither mutate the handle nor move the object, so each invocation is a pure
function of the handle. -/
def accessorTrace {T : Type} (p : PinMutT T) (calls : List AccessorCall) : List Addr :=
  calls.map (accessorAddr p)

/-- What client code can do through the references the accessors return:
read a field, mutate it in place through the returned reference, or call
`Pin::set` on the `Pin<&mut F>` a `field_pin!` accessor returns.  `Pin::set`
(`impl<Ptr: DerefMut> Pin<Ptr>`, no `Unpin` bound, `Ptr::Target: Sized`) is
a safe method that assigns a complete replacement value to the pinned
field: it drops the old value and writes the new one at the same place,
`*pointer = value`. -/
inductive SurfaceOp where
  | readAt (off : Nat)
  | writeInPlace (off : Nat) (v : Int)
  | setField (off : Nat) (v : Int)

/-- Whether a surface operation assigns a wholesale replacement value to
the field (only `Pin::set` does; reads and in-place mutation do not). -/
def SurfaceOp.isWholesaleReplacement : SurfaceOp → Bool
  | .readAt _ => false
  | .writeInPlace _ _ => false
  | .setField _ _ => true

/-- A constructed object: the (fixed) base address of its storage and the
memory contents. -/
structure ObjState where
  base : Addr
  mem : Mem

/-- Effect of one accessor-surface operation on the object: a read leaves
the state unchanged; an in-place write through the returned reference
updates the contents at the field's address; `Pin::set` overwrites the
whole field — also at the field's address, since `*pointer = value` drops
the old value and moves the new one into the same storage. -/
def stepSurfaceOp (s : ObjState) : SurfaceOp → ObjState
  | .readAt _ => s
  | .writeInPlace off v =>
      { s with mem := fun a => if a = fieldRefAddr s.base off then v else s.mem a }
  | .setField off v =>
      { s with mem := fun a => if a = fieldRefAddr s.base off then v else s.mem a }

/-- Running a sequence of accessor-surface operations. -/
def runSurfaceOps (s : ObjState) (ops : List SurfaceOp) : ObjState :=
  ops.foldl stepSurfaceOp s

/-- Visibility of an item at the crate root. -/
inductive RustVis where
  | pub
  | priv
deriving DecidableEq

/-- An item declared at the crate root of src/lib.rs: its name, its
visibility, and whether invoking it requires an unsafe block. -/
structure CrateItem where
  name : String
  vis : RustVis
  safetyGated : Bool
deriving DecidableEq

/-- The items src/lib.rs declares at the crate root: line 8 declares
`pub unsafe fn transmute_maybe_uninit` (public — the exported macros expand
to `$crate::transmute_maybe_uninit` inside client crates — and unsafe), and
the five `#[macro_export]` macros (public; their expansions wrap their own
unsafe blocks, so invoking them needs none). -/
def crateRootItems : List CrateItem :=
  [⟨"transmute_maybe_uninit", .pub, true⟩,
   ⟨"pin_new", .pub, false⟩,
   ⟨"pin_init", .pub, false⟩,
   ⟨"pin_field_init", .pub, false⟩,
   ⟨"field_pin", .pub, false⟩,
   ⟨"field_unpin", .pub, false⟩]

end PinMacros

namespace PinMacros

/-- Claim C1: for every type whose construction is defined via a
`pin_init!`-generated `init` method, and for every uninitialized pinned
handle, construction body and initial memory, the initialized pinned
handle returned refers to exactly the same address as the uninitialized
handle passed in: the object is constructed in place, never copied from a
temporary. -/
theorem c1_pin_init_same_address {T : Type} (body : Addr → Mem → Mem)
    (u : PinMutMU T) (m : Mem) :
    ((pin_init_fn body u m).1).addr = u.addr := by
  rfl

/-- Claim C3 (evaluation at the failing input): invoking
`pin_new!(v: T = make(...))` against a method table where the method named
`make` writes 2 into the slot and the method named `init` writes 1, the
expansion runs the body of `init` (the slot holds 1 afterwards), not the
body of the named method `make` (which would leave 2): the captured method
name is discarded by the macro. -/
theorem c3_pin_new_ignores_method_name :
    ((pin_new Unit demoMethodTable "make" 0 (fun _ => 0)).2) 0 = 1 ∧
    demoMethodTable "make" 0 (fun _ => 0) 0 = 2 := by
  constructor <;> rfl

/-- Claim C4, counterexample: inside a `pin_init!` body that invokes
`pin_init_clone!` once, two simultaneously live mutable handles to the same
storage exist — the threaded `$this` borrow and the clone have distinct
origins but the same address — so aliased mutable access to the storage
under construction is expressible, contradicting the claim that the exposed
operations never make two simultaneously live mutable handles to the same
storage. -/
theorem c4_counterexample :
    pin_init_this_borrow 0 ∈ liveBorrows 0 1 ∧
    pin_init_clone 0 0 ∈ liveBorrows 0 1 ∧
    (pin_init_this_borrow 0).origin ≠ (pin_init_clone 0 0).origin ∧
    (pin_init_this_borrow 0).addr = (pin_init_clone 0 0).addr := by
  refine ⟨by decide, by decide, by decide, rfl⟩

/-- Claim C4, amended: during construction the body can hold several
simultaneously live pinned mutable handles to the storage — besides the
threaded `$this` handle, each `pin_init_clone!` invocation deliberately
creates another — so aliased mutable access is expressible; what holds is
that every mutable borrow the construction machinery creates refers to the
one address of the storage under construction, never to other storage. -/
theorem c4_amended_all_borrows_same_storage (a : Addr) (n : Nat) (b : Borrow)
    (hb : b ∈ liveBorrows a n) : b.addr = a := by
  simp only [liveBorrows, List.mem_cons, List.mem_map, List.mem_range] at hb
  rcases hb with h | ⟨k, _, h⟩ <;> subst h <;> rfl

/-- Witness for the amended C4 theorem at a concrete borrow. -/
theorem c4_amended_witness :
    pin_init_clone 3 0 ∈ liveBorrows 3 2 ∧ (pin_init_clone 3 0).addr = 3 :=
  ⟨by decide,
   c4_amended_all_borrows_same_storage 3 2 (pin_init_clone 3 0) (by decide)⟩

/-- Claim C2, counterexample: resolving the same deferred field a second
time is neither rejected (no assert/abort — the operation completes
normally, returning the previous value) nor inexpressible — here it is
expressed and overwrites the Present value: after a first resolution left
`dst = some 1`, a second resolution yields `dst = some 2 ≠ some 1` and
returns `some 1`. -/
theorem c2_counterexample :
    ((pin_field_init_selfref (⟨0, 0, none⟩ : SelfRefObj Int) (fun _ _ => 1)).1.dst
      = some 1) ∧
    ((pin_field_init_selfref ⟨0, 0, some 1⟩ (fun _ _ => 2)).1.dst = some 2) ∧
    ((pin_field_init_selfref ⟨0, 0, some 1⟩ (fun _ _ => 2)).2 = some 1) ∧
    (pin_field_init_selfref ⟨0, 0, some 1⟩ (fun _ _ => 2)).1.dst ≠ some 1 := by
  refine ⟨rfl, rfl, rfl, by decide⟩

/-- Claim C2, amended: a second resolution of the same deferred field is
accepted, not rejected: `Option::replace` overwrites the Present value with
the newly computed one and returns the previous value.  The field stays
Present, so the Absent-to-Present transition itself still occurs at most
once per construction — every later resolution goes Present-to-Present. -/
theorem c2_amended_second_resolution_overwrites {F : Type} (o : SelfRefObj F)
    (e : Int → Int → F) (_h : o.dst.isSome) :
    (pin_field_init_selfref o e).1.dst = some (e o.srcA o.srcB) ∧
    (pin_field_init_selfref o e).2 = o.dst ∧
    ((pin_field_init_selfref o e).1.dst).isSome := by
  exact ⟨rfl, rfl, rfl⟩

/-- Witness for the amended C2 theorem at a concrete Present field. -/
theorem c2_amended_witness :
    (Option.isSome ((⟨1, 2, some 5⟩ : SelfRefObj Int).dst) ∧
      (pin_field_init_selfref (⟨1, 2, some 5⟩ : SelfRefObj Int) (fun a b => a + b)).1.dst
        = some 3) :=
  ⟨by decide,
   (c2_amended_second_resolution_overwrites (⟨1, 2, some 5⟩ : SelfRefObj Int)
      (fun a b => a + b) (by decide)).1⟩

/-- Claim C5: for a deferred field in the Absent state with its named
sibling fields already written, deferred resolution evaluates the supplied
expression on the live sibling values and leaves the field Present holding
exactly the computed value; the value overwritten (returned by `replace`)
is only the Absent placeholder `none`, and the siblings are untouched. -/
theorem c5_resolution_from_absent {F : Type} (o : SelfRefObj F)
    (e : Int → Int → F) (h : o.dst = none) :
    (pin_field_init_selfref o e).1.dst = some (e o.srcA o.srcB) ∧
    (pin_field_init_selfref o e).2 = none ∧
    (pin_field_init_selfref o e).1.srcA = o.srcA ∧
    (pin_field_init_selfref o e).1.srcB = o.srcB := by
  exact ⟨rfl, by simp [pin_field_init_selfref, optionReplace, h], rfl, rfl⟩

/-- Witness for the C5 theorem at a concrete Absent field. -/
theorem c5_witness :
    ((⟨4, 7, none⟩ : SelfRefObj Int).dst = none ∧
      (pin_field_init_selfref (⟨4, 7, none⟩ : SelfRefObj Int) (fun a b => a * b)).1.dst
        = some 28) :=
  ⟨rfl,
   by
    have h := c5_resolution_from_absent (⟨4, 7, none⟩ : SelfRefObj Int)
      (fun a b => a * b) rfl
    simpa using h.1⟩

/-- Claim C6: for a field (at offset `off`) of an object under construction
at `base` whose type follows the same protocol, `pin_init_field!` yields a
pinned-uninitialized handle whose address is exactly the address of that
field inside the parent (same base, plus the field offset, type narrowed by
the address-preserving transmute), and the nested-construction rule of
`pin_field_init!` invokes the field type's construction method on the
freshly written payload exactly once. -/
theorem c6_nested_field_view {F : Type} (base : Addr) (off : Nat)
    (prior : Option F) (junk : F) (method : F → F) :
    (pin_init_field F base off).addr = fieldRefAddr base off ∧
    pin_field_init_nested prior junk method = .ok (method junk) 1 := by
  exact ⟨rfl, rfl⟩

/-- Claim C10: in `pin_field_init!`'s nested-construction rule the `None`
match arm (which invokes `unreachable!`) never executes: the field pointer
has just been written with a `Some` value, so the match always takes the
`Some` branch, whatever the field held before. -/
theorem c10_none_arm_unreachable {F : Type} (prior : Option F) (junk : F)
    (method : F → F) :
    (pin_field_init_nested prior junk method).tookUnreachableArm = false := by
  rfl

/-- Claim C7: on one pinned object handle, any two invocations of the same
generated accessor (`field_pin!` or `field_unpin!`, identified by its field
offset) return references to the same address — the address of that field
inside the object — regardless of which other accessor calls occur between
them: in a trace with the same call repeated around arbitrary other calls,
both occurrences yield the one value `accessorAddr p c`, which for either
accessor kind is the object base plus the field offset. -/
theorem c7_accessor_addresses_stable {T : Type} (p : PinMutT T) (c : AccessorCall)
    (pre mid post : List AccessorCall) :
    accessorTrace p (pre ++ c :: mid ++ c :: post)
      = accessorTrace p pre ++ accessorAddr p c ::
          (accessorTrace p mid ++ accessorAddr p c :: accessorTrace p post) ∧
    (∀ off : Nat, accessorAddr p (.pinAcc off) = fieldRefAddr p.addr off ∧
      accessorAddr p (.unpinAcc off) = fieldRefAddr p.addr off) := by
  exact ⟨by simp [accessorTrace], fun off => ⟨rfl, rfl⟩⟩

/-- One accessor-surface operation never changes the base address of the
object it acts on. -/
theorem stepSurfaceOp_base (s : ObjState) (op : SurfaceOp) :
    (stepSurfaceOp s op).base = s.base := by
  cases op <;> rfl

/-- Claim C8, counterexample: the claim that no accessor permits assigning
a wholesale replacement value to a pinned field is false — `Pin::set` on
the `Pin<&mut F>` returned by a `field_pin!` accessor is a safe wholesale
replacement assignment (it has no `Unpin` bound), it is among the surface
operations, and at a concrete object it replaces the field's whole value
(7 becomes 42) in one step. -/
theorem c8_counterexample :
    (SurfaceOp.setField 0 42).isWholesaleReplacement = true ∧
    (⟨0, fun _ => 7⟩ : ObjState).mem (fieldRefAddr 0 0) = 7 ∧
    (runSurfaceOps ⟨0, fun _ => 7⟩ [SurfaceOp.setField 0 42]).mem (fieldRefAddr 0 0)
      = 42 := by
  exact ⟨rfl, rfl, rfl⟩

/-- Claim C8, amended: the accessor surface does permit wholesale
replacement of a pinned field — `Pin::set` on the returned `Pin<&mut F>` is
safe with no `Unpin` bound — but replacement writes the new value in place
at the same storage (`*pointer = value`), so every use of the accessor
surface, `Pin::set` included, preserves the object's base address and
therefore the address of every field. -/
theorem c8_surface_preserves_field_addresses (s : ObjState) (ops : List SurfaceOp) :
    (runSurfaceOps s ops).base = s.base ∧
    ∀ off : Nat, fieldRefAddr (runSurfaceOps s ops).base off = fieldRefAddr s.base off := by
  have hbase : ∀ (l : List SurfaceOp) (t : ObjState), (runSurfaceOps t l).base = t.base := by
    intro l
    induction l with
    | nil => intro t; rfl
    | cons op tl ih =>
        intro t
        have hstep : runSurfaceOps t (op :: tl) = runSurfaceOps (stepSurfaceOp t op) tl := rfl
        rw [hstep, ih, stepSurfaceOp_base]
  exact ⟨hbase ops s, fun off => by rw [hbase ops s]⟩

/-- Claim C9, counterexample: `transmute_maybe_uninit` is declared
`pub unsafe fn` at the crate root (src/lib.rs line 8), so it is part of the
public surface available to code outside the protocol machinery — it is not
private as the claim asserts. -/
theorem c9_counterexample :
    (⟨"transmute_maybe_uninit", .pub, true⟩ : CrateItem) ∈ crateRootItems ∧
    ¬ (∀ i ∈ crateRootItems, i.name = "transmute_maybe_uninit" →
        i.vis = RustVis.priv) := by
  decide

/-- Claim C9, amended: `transmute_maybe_uninit` is part of the public
surface (it must be `pub`, since the exported macros expand to
`$crate::transmute_maybe_uninit` inside client crates), but it is an unsafe
fn, so code outside the protocol machinery can invoke it only inside an
unsafe block. -/
theorem c9_amended_public_but_gated :
    (⟨"transmute_maybe_uninit", .pub, true⟩ : CrateItem) ∈ crateRootItems ∧
    (∀ i ∈ crateRootItems, i.name = "transmute_maybe_uninit" →
      i.vis = RustVis.pub ∧ i.safetyGated = true) := by
  decide

end PinMacros
